import Mathlib

/-!
# Verification of the Composite Scoring Engine (`src/mvp/ai-engine/scoring-engine.js`)

Shallow embedding of the PR scoring engine. Conventions:

* JavaScript numbers are modelled as exact rationals (`ℚ`); every numeric
  literal in the source is a small decimal, and the spec states the arithmetic
  in exact decimal terms.
* `Math.round(x * 10) / 10` is modelled as `round1` below; JS `Math.round`
  rounds half-up (towards `+∞`), i.e. `⌊x + 1/2⌋`.
* Optional / possibly-`undefined` fields are `Option`; JS truthiness of a
  string value (`undefined`, `null` and `""` are falsy) is `strTruthy`.
* The two external model calls are inputs to the functions that make them:
  `ClarityResponse` is the outcome of the clarity model call (either the call
  threw, or it returned text whose `parseFloat(text.trim())` result is carried
  as `Option ℚ`, `none` standing for `NaN`); `SuggestionResponse` is the
  outcome of the suggestion model call followed by `JSON.parse` (the call or
  the parse threw, the parse produced a non-array value, or it produced an
  array of strings).
* Functions that can let a JS exception escape return `Except String α`; the
  error string is the message of the escaping exception.  In
  `generateSuggestions` the `catch` block references `lowScoreAreas`, a
  `const` declared inside the `try` block and therefore out of scope in the
  `catch` block, so executing that `catch` raises a `ReferenceError`.
* The `timestamp` field of the result (wall-clock time) is outside the model.
-/

namespace PrScoring

/-- `Math.min` on numbers (no `NaN` in the model). -/
def jsMin (a b : ℚ) : ℚ := if a ≤ b then a else b

/-- `Math.max` on numbers (no `NaN` in the model). -/
def jsMax (a b : ℚ) : ℚ := if a ≤ b then b else a

/-- JS truthiness of a possibly-undefined string: `undefined`/`null` and the
empty string are falsy. -/
def strTruthy : Option String → Bool
  | none => false
  | some s => !s.isEmpty

/-- `needle` occurs as a contiguous sublist of `haystack`. -/
def charsInclude (needle : List Char) : List Char → Bool
  | [] => needle.isEmpty
  | c :: rest => needle.isPrefixOf (c :: rest) || charsInclude needle rest

/-- Substring test, `haystack.includes(needle)` in JS. -/
def strIncludes (haystack needle : String) : Bool :=
  charsInclude needle.toList haystack.toList

/-- ASCII lowercasing of a string, `s.toLowerCase()` in JS (every string this
engine lowercases is compared against ASCII keywords).  Defined by structural
recursion over the character list. -/
def strToLower (s : String) : String := ⟨s.data.map Char.toLower⟩

/-- `desc && desc.length > n` for an optional string `desc`. -/
def descLenGt (description : Option String) (n : Nat) : Bool :=
  match description with
  | none => false
  | some d => !d.isEmpty && d.length > n

/-- A changed file, `{filename, status}`. -/
structure FileChange where
  filename : String
  status : String
deriving DecidableEq, Repr

/-- Jira ticket context; all fields may be absent. -/
structure JiraContext where
  ticketId : Option String
  ticketStatus : Option String
  ticketType : Option String
  priority : Option String
deriving DecidableEq, Repr

/-- The pull-request data consumed by the engine (`prData`). -/
structure PrData where
  title : String
  description : Option String
  files : List FileChange
  tests : List String
  jiraContext : Option JiraContext
deriving DecidableEq, Repr

/-- Configured scoring weights (`config.scoring.weights`). -/
structure Weights where
  clarity : ℚ
  context : ℚ
  completeness : ℚ
  jiraLink : ℚ
deriving DecidableEq, Repr

/-- Configured rating thresholds (`config.scoring.thresholds`). -/
structure Thresholds where
  excellent : ℚ
  good : ℚ
  needsImprovement : ℚ
deriving DecidableEq, Repr

/-- The per-dimension sub-score breakdown, in the literal field order of the
`scores` object built in `calculateScore`. -/
structure Breakdown where
  clarity : ℚ
  context : ℚ
  completeness : ℚ
  jiraLink : ℚ
deriving DecidableEq, Repr

/-- The scoring result (without the wall-clock `timestamp`). -/
structure ScoringResult where
  totalScore : ℚ
  breakdown : Breakdown
  rating : String
  suggestions : List String
deriving DecidableEq, Repr

/-- Outcome of the clarity model call: the call threw, or it returned text;
the payload is `parseFloat(text.trim())`, with `none` for `NaN`. -/
inductive ClarityResponse where
  | cthrow
  | reply (parsed : Option ℚ)
deriving DecidableEq, Repr

/-- Outcome of the suggestion model call followed by `JSON.parse` on its
content: the call or the parse threw; the parse produced a non-array value;
or it produced an array of strings. -/
inductive SuggestionResponse where
  | sthrow
  | nonArray
  | array (items : List String)
deriving DecidableEq, Repr

/-- `Math.round(x * 10) / 10`: round to one decimal place, halves up. -/
def round1 (x : ℚ) : ℚ :=
  ((⌊x * 10 + 1 / 2⌋ : ℤ) : ℚ) / 10

/-! ## Heuristic evaluators, translated line by line from the source -/

/-- The `contextKeywords` array in `analyzeContextScore`. -/
def contextKeywords : List String :=
  ["because", "fixes", "addresses", "implements", "refactor"]

/-- `description?.toLowerCase().includes(keyword)`: optional chaining yields
`undefined` (falsy) when the description is absent. -/
def optIncludesLower (description : Option String) (keyword : String) : Bool :=
  match description with
  | none => false
  | some d => strIncludes (strToLower d) keyword

/-- The `hasContext` test in `analyzeContextScore`:
`contextKeywords.some(k => description?.toLowerCase().includes(k))`. -/
def hasContextKeyword (description : Option String) : Bool :=
  contextKeywords.any fun keyword => optIncludesLower description keyword

/-- `analyzeContextScore(description, files)` (scoring-engine.js:107-134). -/
def analyzeContextScore (description : Option String) (files : List FileChange) : ℚ :=
  let score : ℚ := 5
  let score := if descLenGt description 100 then score + 1.5 else score
  let score := if descLenGt description 300 then score + 1 else score
  let score := if hasContextKeyword description then score + 1.5 else score
  let score :=
    if files.length > 0 then
      let score := if files.length ≤ 5 then score + 1 else score
      let score := if files.length > 10 then score - 1 else score
      score
    else score
  jsMax 1 (jsMin 10 score)

/-- The per-file test inside `hasDocUpdates`:
`file.filename.toLowerCase().includes("readme") ||
 file.filename.toLowerCase().includes(".md")`. -/
def isDocFile (file : FileChange) : Bool :=
  strIncludes (strToLower file.filename) "readme" || strIncludes (strToLower file.filename) ".md"

/-- The `hasDocUpdates` test in `analyzeCompletenessScore`: `files?.some(...)`. -/
def hasDocUpdates (files : List FileChange) : Bool :=
  files.any isDocFile

/-- `analyzeCompletenessScore(prData)` (scoring-engine.js:139-161). -/
def analyzeCompletenessScore (prData : PrData) : ℚ :=
  let score : ℚ := 5
  let score :=
    if !prData.title.isEmpty && prData.title.length > 10 then score + 1 else score
  let score := if descLenGt prData.description 50 then score + 1 else score
  let score := if prData.files.length > 0 then score + 1 else score
  let score := if prData.tests.length > 0 then score + 2 else score
  let score := if hasDocUpdates prData.files then score + 1 else score
  jsMax 1 (jsMin 10 score)

/-- `analyzeJiraLinkScore(jiraContext)` (scoring-engine.js:166-178). -/
def analyzeJiraLinkScore (jiraContext : Option JiraContext) : ℚ :=
  match jiraContext with
  | none => 0
  | some j =>
    let score : ℚ := 5
    let score := if strTruthy j.ticketId then score + 2 else score
    let score := if j.ticketStatus = some "In Progress" then score + 1 else score
    let score := if strTruthy j.ticketType then score + 1 else score
    let score := if strTruthy j.priority then score + 1 else score
    jsMax 0 (jsMin 10 score)

/-- The conventional-commit prefixes of the regex
`/^(feat|fix|docs|style|refactor|test|chore):/i`. -/
def convPrefixes : List String :=
  ["feat", "fix", "docs", "style", "refactor", "test", "chore"]

/-- `/^(feat|fix|docs|style|refactor|test|chore):/i.test(title)`. -/
def titleHasConvPrefix (title : String) : Bool :=
  convPrefixes.any fun p => (p ++ ":").data.isPrefixOf (strToLower title).data

/-- `fallbackClarityScore(title, description)` (scoring-engine.js:237-246). -/
def fallbackClarityScore (title : String) (description : Option String) : ℚ :=
  let score : ℚ := 5
  let score :=
    if !title.isEmpty && title.length > 10 && title.length < 100 then score + 2 else score
  let score := if descLenGt description 50 then score + 2 else score
  let score := if !title.isEmpty && titleHasConvPrefix title then score + 1 else score
  jsMax 1 (jsMin 10 score)

/-- `analyzeClarityScore(title, description)` (scoring-engine.js:70-102): on a
successful call, parse the response; `NaN` yields the constant `5.0`, a number
is clamped to `[1,10]`; if the call threw, the `catch` delegates to
`fallbackClarityScore`. -/
def analyzeClarityScore (response : ClarityResponse) (title : String)
    (description : Option String) : ℚ :=
  match response with
  | .cthrow => fallbackClarityScore title description
  | .reply none => 5
  | .reply (some x) => jsMax 1 (jsMin 10 x)

/-! ## Suggestions and composite scoring -/

/-- The fixed `suggestions` lookup object in `getFallbackSuggestions`
(scoring-engine.js:252-258); `none` models `undefined` for an unknown key. -/
def suggestionsMap : String → Option String
  | "clarity" => some "Consider adding more descriptive title and detailed description"
  | "context" => some "Provide more context about why this change is needed"
  | "completeness" => some "Add tests and update documentation if needed"
  | "jiraLink" => some "Link this PR to the relevant Jira ticket"
  | _ => none

/-- `getFallbackSuggestions(lowScoreAreas)` (scoring-engine.js:251-261):
`lowScoreAreas.map(area => suggestions[area]).filter(Boolean)`. -/
def getFallbackSuggestions (lowScoreAreas : List String) : List String :=
  ((lowScoreAreas.map suggestionsMap).filter strTruthy).filterMap id

/-- `Object.entries(scores)` for the `scores` object literal of
`calculateScore`: insertion order clarity, context, completeness, jiraLink. -/
def scoresEntries (scores : Breakdown) : List (String × ℚ) :=
  [("clarity", scores.clarity), ("context", scores.context),
   ("completeness", scores.completeness), ("jiraLink", scores.jiraLink)]

/-- The `lowScoreAreas` computed in `generateSuggestions`:
`Object.entries(scores).filter(([_, s]) => s < 7).map(([a, _]) => a)`. -/
def lowScoreAreas (scores : Breakdown) : List String :=
  ((scoresEntries scores).filter fun e => e.2 < 7).map fun e => e.1

/-- The fixed affirmation string returned when no dimension is weak. -/
def affirmation : String := "Great job! This PR meets all quality standards."

/-- `generateSuggestions(prData, scores)` (scoring-engine.js:183-222).
`lowScoreAreas` is a `const` inside the `try` block; the `catch` block
references it out of scope, so a failing model call (or a `JSON.parse` throw)
makes the `catch` itself raise a `ReferenceError`, which escapes. -/
def generateSuggestions (response : SuggestionResponse)
    (scores : Breakdown) : Except String (List String) :=
  let low := lowScoreAreas scores
  if low.isEmpty then
    Except.ok [affirmation]
  else
    match response with
    | .sthrow => Except.error "ReferenceError: lowScoreAreas is not defined"
    | .nonArray => Except.ok (getFallbackSuggestions low)
    | .array items => Except.ok items

/-- `getRating(score)` (scoring-engine.js:227-232). -/
def getRating (thresholds : Thresholds) (score : ℚ) : String :=
  if score ≥ thresholds.excellent then "excellent"
  else if score ≥ thresholds.good then "good"
  else if score ≥ thresholds.needsImprovement then "needs-improvement"
  else "poor"

/-- `calculateScore(prData)` (scoring-engine.js:19-65).  The whole body runs
in a `try`; the only inner function that can let an exception escape is
`generateSuggestions`, and the top-level `catch` converts any escaping error
into a thrown `Error("Failed to calculate PR score")`.  Note the `rating`
field is computed from the *unrounded* `totalScore` while the reported
`totalScore` field is rounded. -/
def calculateScore (clarityResponse : ClarityResponse)
    (suggestionResponse : SuggestionResponse) (weights : Weights)
    (thresholds : Thresholds) (prData : PrData) : Except String ScoringResult :=
  let clarityScore := analyzeClarityScore clarityResponse prData.title prData.description
  let contextScore := analyzeContextScore prData.description prData.files
  let completenessScore := analyzeCompletenessScore prData
  let jiraLinkScore := analyzeJiraLinkScore prData.jiraContext
  let totalScore :=
    clarityScore * weights.clarity +
    contextScore * weights.context +
    completenessScore * weights.completeness +
    jiraLinkScore * weights.jiraLink
  let scores : Breakdown :=
    { clarity := clarityScore, context := contextScore,
      completeness := completenessScore, jiraLink := jiraLinkScore }
  match generateSuggestions suggestionResponse scores with
  | .error _ => Except.error "Failed to calculate PR score"
  | .ok suggestions =>
    Except.ok
      { totalScore := round1 totalScore
        breakdown := scores
        rating := getRating thresholds totalScore
        suggestions := suggestions }

/-! ## Spec-side definitions

These follow the wording of the specification (not the source code); they are
compared against the source-translated definitions above. -/

/-- Spec-side: the description case-insensitively contains one of the
rationale keywords as a substring (an absent description contains nothing). -/
def specHasRationaleKeyword (description : Option String) : Bool :=
  contextKeywords.any fun kw =>
    strIncludes (strToLower (description.getD "")) (strToLower kw)

/-- Spec-side context formula: base 5.0; +1.5 if description length > 100;
+1.0 more if length > 300; +1.5 for a rationale keyword; +1.0 only when
`0 < files ≤ 5`; −1.0 when more than 10 files; clamped to `[1,10]`. -/
def specContextScore (description : Option String) (files : List FileChange) : ℚ :=
  max 1 (min 10 (5
    + (if (description.getD "").length > 100 then 1.5 else 0)
    + (if (description.getD "").length > 300 then 1 else 0)
    + (if specHasRationaleKeyword description then 1.5 else 0)
    + (if 0 < files.length ∧ files.length ≤ 5 then 1 else 0)
    - (if files.length > 10 then 1 else 0)))

/-- Spec-side: the filename ends with a markdown extension
(case-insensitively `.md` or `.markdown`). -/
def specEndsWithMarkdownExt (name : String) : Bool :=
  ".md".data.isSuffixOf (strToLower name).data ||
  ".markdown".data.isSuffixOf (strToLower name).data

/-- Spec-side documentation-file test of claim C7: the filename
case-insensitively contains "readme" or ends with a markdown extension. -/
def specIsDocFile (file : FileChange) : Bool :=
  strIncludes (strToLower file.filename) "readme" ||
  specEndsWithMarkdownExt file.filename

/-- Spec-side completeness formula as claimed: base 5.0; +1.0 if title
length > 10; +1.0 if description length > 50; +1.0 if at least one file;
+2.0 if at least one test reference; +1.0 if some file is a documentation
file per `specIsDocFile`; clamped to `[1,10]`. -/
def specCompletenessScore (prData : PrData) : ℚ :=
  max 1 (min 10 (5
    + (if prData.title.length > 10 then 1 else 0)
    + (if (prData.description.getD "").length > 50 then 1 else 0)
    + (if 0 < prData.files.length then 1 else 0)
    + (if 0 < prData.tests.length then 2 else 0)
    + (if prData.files.any specIsDocFile then 1 else 0)))

/-- Amended completeness formula: identical to `specCompletenessScore`
except that the documentation-file test is "case-insensitively contains
`readme` or contains `.md` as a substring". -/
def specCompletenessScoreAmended (prData : PrData) : ℚ :=
  max 1 (min 10 (5
    + (if prData.title.length > 10 then 1 else 0)
    + (if (prData.description.getD "").length > 50 then 1 else 0)
    + (if 0 < prData.files.length then 1 else 0)
    + (if 0 < prData.tests.length then 2 else 0)
    + (if prData.files.any (fun f =>
          strIncludes (strToLower f.filename) "readme" ||
          strIncludes (strToLower f.filename) ".md") then 1 else 0)))

/-- The canonical dimension order of the breakdown. -/
def canonicalDims : List String :=
  ["clarity", "context", "completeness", "jiraLink"]

/-- Sub-score of a named dimension (unknown names read as 0). -/
def dimScore (scores : Breakdown) : String → ℚ
  | "clarity" => scores.clarity
  | "context" => scores.context
  | "completeness" => scores.completeness
  | "jiraLink" => scores.jiraLink
  | _ => 0

/-- Spec-side weak-dimension list: the canonical dimensions whose sub-score
is strictly below the suggestion threshold 7. -/
def specWeakDims (scores : Breakdown) : List String :=
  canonicalDims.filter fun d => dimScore scores d < 7

/-- Rating bands ordered `poor < needs-improvement < good < excellent`. -/
def ratingRank (rating : String) : ℕ :=
  if rating = "excellent" then 3
  else if rating = "good" then 2
  else if rating = "needs-improvement" then 1
  else 0

/-- Example configuration used for concrete instances: weights 0.3 / 0.2 /
0.3 / 0.2 and thresholds 8 / 6 / 4. -/
def wDefault : Weights := ⟨0.3, 0.2, 0.3, 0.2⟩

/-- Example ascending thresholds 8 / 6 / 4. -/
def thDefault : Thresholds := ⟨8, 6, 4⟩

/-- A minimal request: empty title, no description, no files, no tests, no
ticket context. -/
def pdEmpty : PrData := ⟨"", none, [], [], none⟩

/-! ## Helper lemmas -/

theorem jsMin_eq_min (a b : ℚ) : jsMin a b = min a b := by
  rw [jsMin, min_def]

theorem jsMax_eq_max (a b : ℚ) : jsMax a b = max a b := by
  rw [jsMax, max_def]

theorem clamp_lower (lo hi x : ℚ) : lo ≤ jsMax lo (jsMin hi x) := by
  rw [jsMax_eq_max]; exact le_max_left lo _

theorem clamp_upper (lo hi x : ℚ) (h : lo ≤ hi) : jsMax lo (jsMin hi x) ≤ hi := by
  rw [jsMax_eq_max, jsMin_eq_min]
  exact max_le h (min_le_left hi x)

theorem descLenGt_eq (d : Option String) (n : ℕ) :
    descLenGt d n = decide ((d.getD "").length > n) := by
  cases d with
  | none => simp [descLenGt]
  | some s =>
    simp only [descLenGt, Option.getD_some]
    by_cases hs : s.isEmpty
    · rw [String.isEmpty_iff] at hs
      subst hs
      simp
    · simp [hs]

theorem specHasRationaleKeyword_eq (d : Option String) :
    specHasRationaleKeyword d = hasContextKeyword d := by
  cases d with
  | none => decide
  | some s =>
    simp [specHasRationaleKeyword, hasContextKeyword, contextKeywords, optIncludesLower,
      (by decide : strToLower "because" = "because"),
      (by decide : strToLower "fixes" = "fixes"),
      (by decide : strToLower "addresses" = "addresses"),
      (by decide : strToLower "implements" = "implements"),
      (by decide : strToLower "refactor" = "refactor")]

theorem analyzeJiraLinkScore_some_bounds (j : JiraContext) :
    5 ≤ analyzeJiraLinkScore (some j) ∧ analyzeJiraLinkScore (some j) ≤ 10 := by
  simp only [analyzeJiraLinkScore]
  split_ifs <;> norm_num [jsMax, jsMin]

/-! ## Claims -/

/-- C1: the claim says a model-call failure on any call is fully absorbed and
`score()` never throws.  In the source, the `catch` block of
`generateSuggestions` references `lowScoreAreas`, a `const` scoped to the
`try` block, so when the suggestion model call fails and at least one
dimension is weak the `catch` itself raises a `ReferenceError` and
`calculateScore`'s top-level `catch` turns it into a thrown
`Error("Failed to calculate PR score")`.  Evaluated here at a minimal request
with both model calls failing: `score()` throws instead of returning a
result. -/
theorem score_throws_when_suggestion_call_fails :
    calculateScore ClarityResponse.cthrow SuggestionResponse.sthrow
      wDefault thDefault pdEmpty = Except.error "Failed to calculate PR score" := by
  norm_num [calculateScore, generateSuggestions, analyzeClarityScore,
    fallbackClarityScore, analyzeContextScore, analyzeCompletenessScore,
    analyzeJiraLinkScore, jsMin, jsMax, descLenGt, strTruthy,
    lowScoreAreas, scoresEntries, wDefault, thDefault, pdEmpty,
    (by decide : hasContextKeyword (none : Option String) = false),
    (by decide : hasDocUpdates ([] : List FileChange) = false),
    (by decide : titleHasConvPrefix "" = false)]

/-- C2 counterexample: with a non-numeric clarity response the code returns
the constant `5.0`, while the fallback heuristic for the same title and
description evaluates to `10`; the two differ, so the clarity sub-score does
not equal the fallback value. -/
theorem clarity_nan_differs_from_fallback :
    analyzeClarityScore (ClarityResponse.reply none) "feat: add OAuth2 login"
        (some "This description is definitely longer than fifty characters, yes.") ≠
      fallbackClarityScore "feat: add OAuth2 login"
        (some "This description is definitely longer than fifty characters, yes.") := by
  have h1 : analyzeClarityScore (ClarityResponse.reply none) "feat: add OAuth2 login"
      (some "This description is definitely longer than fifty characters, yes.") = 5 := rfl
  have h2 : fallbackClarityScore "feat: add OAuth2 login"
      (some "This description is definitely longer than fifty characters, yes.") = 10 := by
    norm_num [fallbackClarityScore, jsMin, jsMax,
      (by decide : descLenGt
        (some "This description is definitely longer than fifty characters, yes.") 50 = true),
      (by decide : titleHasConvPrefix "feat: add OAuth2 login" = true),
      (by decide : ("feat: add OAuth2 login" : String).isEmpty = false),
      (by decide : ("feat: add OAuth2 login" : String).length = 22)]
  rw [h1, h2]; norm_num

/-- C2 amended: when the model's clarity response does not parse as a number,
the Semantic Evaluator returns the constant neutral value `5.0` (and raises
no failure); the clarity heuristic fallback is used only when the model call
itself throws. -/
theorem clarity_nan_yields_neutral_five (title : String) (description : Option String) :
    analyzeClarityScore (ClarityResponse.reply none) title description = 5 := rfl

/-- C5: every sub-score lies in its documented closed range — clarity,
context and completeness in `[1,10]`, ticket linkage in `[0,10]` — and the
ticket-linkage sub-score is `0` exactly when the ticket context is absent. -/
theorem subscores_within_documented_ranges
    (resp : ClarityResponse) (title : String) (description : Option String)
    (files : List FileChange) (prData : PrData) (jiraContext : Option JiraContext) :
    (1 ≤ analyzeClarityScore resp title description ∧
      analyzeClarityScore resp title description ≤ 10) ∧
    (1 ≤ analyzeContextScore description files ∧
      analyzeContextScore description files ≤ 10) ∧
    (1 ≤ analyzeCompletenessScore prData ∧ analyzeCompletenessScore prData ≤ 10) ∧
    (0 ≤ analyzeJiraLinkScore jiraContext ∧ analyzeJiraLinkScore jiraContext ≤ 10) ∧
    (analyzeJiraLinkScore jiraContext = 0 ↔ jiraContext = none) := by
  refine ⟨?_, ?_, ?_, ?_, ?_⟩
  · cases resp with
    | cthrow =>
      simp only [analyzeClarityScore, fallbackClarityScore]
      exact ⟨clamp_lower 1 10 _, clamp_upper 1 10 _ (by norm_num)⟩
    | reply parsed =>
      cases parsed with
      | none => simp only [analyzeClarityScore]; norm_num
      | some x =>
        simp only [analyzeClarityScore]
        exact ⟨clamp_lower 1 10 _, clamp_upper 1 10 _ (by norm_num)⟩
  · simp only [analyzeContextScore]
    exact ⟨clamp_lower 1 10 _, clamp_upper 1 10 _ (by norm_num)⟩
  · simp only [analyzeCompletenessScore]
    exact ⟨clamp_lower 1 10 _, clamp_upper 1 10 _ (by norm_num)⟩
  · cases jiraContext with
    | none => simp only [analyzeJiraLinkScore]; norm_num
    | some j =>
      have h := analyzeJiraLinkScore_some_bounds j
      exact ⟨by linarith [h.1], h.2⟩
  · cases jiraContext with
    | none => simp [analyzeJiraLinkScore]
    | some j =>
      have h := analyzeJiraLinkScore_some_bounds j
      constructor
      · intro h0; rw [h0] at h; linarith [h.1]
      · intro hc; cases hc

/-- C10: whenever ticket context is present the ticket-linkage sub-score is
at least `5.0` (and at most `10`), and it is `0` with no ticket context, so
values strictly between `0` and `5` are unreachable. -/
theorem jira_score_zero_or_at_least_five (j : JiraContext) :
    (5 ≤ analyzeJiraLinkScore (some j) ∧ analyzeJiraLinkScore (some j) ≤ 10) ∧
    analyzeJiraLinkScore none = 0 :=
  ⟨analyzeJiraLinkScore_some_bounds j, rfl⟩

/-- C6: the context sub-score equals the spec's formula — base 5.0, +1.5 for
description length > 100, a further +1.0 for length > 300, +1.5 for a
rationale keyword, +1.0 exactly when `0 < files ≤ 5`, −1.0 when more than 10
files, clamped to `[1,10]` — and in particular an empty description with an
empty file list yields exactly `5.0`. -/
theorem context_score_matches_spec_formula :
    (∀ (description : Option String) (files : List FileChange),
      analyzeContextScore description files = specContextScore description files) ∧
    analyzeContextScore (some "") [] = 5 := by
  constructor
  · intro d files
    simp only [analyzeContextScore, specContextScore, jsMax_eq_max, jsMin_eq_min,
      descLenGt_eq d 100, descLenGt_eq d 300,
      specHasRationaleKeyword_eq, decide_eq_true_eq]
    congr 1
    congr 1
    split_ifs <;> first | (exfalso; omega) | norm_num
  · norm_num [analyzeContextScore, jsMin, jsMax,
      (by decide : descLenGt (some "") 100 = false),
      (by decide : descLenGt (some "") 300 = false),
      (by decide : hasContextKeyword (some "") = false)]

theorem title_truthy_lenGt (t : String) (n : ℕ) :
    (!t.isEmpty && decide (t.length > n)) = decide (t.length > n) := by
  by_cases hs : t.isEmpty
  · rw [String.isEmpty_iff] at hs
    subst hs
    simp
  · simp [hs]

theorem hasDocUpdates_eq (files : List FileChange) :
    hasDocUpdates files = files.any (fun f =>
      strIncludes (strToLower f.filename) "readme" ||
      strIncludes (strToLower f.filename) ".md") := rfl

/-- A request whose only changed file is `doc.md.bak`: its name contains
`.md` as a substring but does not end with a markdown extension. -/
def pdDocBak : PrData := ⟨"", none, [⟨"doc.md.bak", "modified"⟩], [], none⟩

/-- C7 counterexample: for the file `doc.md.bak` the source awards the
documentation bonus (its name contains `.md` as a substring), while the
claimed "ends with a markdown extension" formula does not: the code yields
`7`, the claimed formula `6`. -/
theorem completeness_md_substring_counterexample :
    analyzeCompletenessScore pdDocBak ≠ specCompletenessScore pdDocBak ∧
    analyzeCompletenessScore pdDocBak = 7 ∧ specCompletenessScore pdDocBak = 6 := by
  have h1 : analyzeCompletenessScore pdDocBak = 7 := by
    norm_num [analyzeCompletenessScore, jsMin, jsMax, descLenGt, pdDocBak,
      (by decide : hasDocUpdates [⟨"doc.md.bak", "modified"⟩] = true)]
  have h2 : specCompletenessScore pdDocBak = 6 := by
    norm_num [specCompletenessScore, pdDocBak, min_def, max_def,
      (by decide : [FileChange.mk "doc.md.bak" "modified"].any specIsDocFile = false)]
  refine ⟨?_, h1, h2⟩
  rw [h1, h2]; norm_num

/-- C7 amended: the completeness sub-score equals the claimed formula with
the documentation test read as the source implements it — the filename
case-insensitively contains "readme" or contains ".md" as a substring
(rather than ending with a markdown extension). -/
theorem completeness_matches_amended_formula (prData : PrData) :
    analyzeCompletenessScore prData = specCompletenessScoreAmended prData := by
  simp only [analyzeCompletenessScore, specCompletenessScoreAmended, jsMax_eq_max,
    jsMin_eq_min, descLenGt_eq, title_truthy_lenGt, hasDocUpdates_eq,
    decide_eq_true_eq]
  congr 1
  congr 1
  split_ifs <;> first | (exfalso; omega) | norm_num

/-- C8: if all four sub-scores are at least the suggestion threshold `7`,
`generateSuggestions` returns exactly the single fixed affirmation string;
and the deterministic fallback maps the weak dimensions (sub-score strictly
below `7`) one-to-one to their fixed suggestion strings, in the canonical
order clarity, context, completeness, jiraLink, with no duplicates and no
entry for a non-weak dimension. -/
theorem suggestions_affirmation_and_fallback (scores : Breakdown) (resp : SuggestionResponse) :
    ((7 ≤ scores.clarity ∧ 7 ≤ scores.context ∧ 7 ≤ scores.completeness ∧
        7 ≤ scores.jiraLink) →
      generateSuggestions resp scores = Except.ok [affirmation]) ∧
    getFallbackSuggestions (lowScoreAreas scores) =
      (specWeakDims scores).map (fun d => (suggestionsMap d).getD "") ∧
    (getFallbackSuggestions (lowScoreAreas scores)).Nodup := by
  refine ⟨?_, ?_, ?_⟩
  · rintro ⟨a1, a2, a3, a4⟩
    have h1 : ¬scores.clarity < 7 := not_lt.mpr a1
    have h2 : ¬scores.context < 7 := not_lt.mpr a2
    have h3 : ¬scores.completeness < 7 := not_lt.mpr a3
    have h4 : ¬scores.jiraLink < 7 := not_lt.mpr a4
    simp [generateSuggestions, lowScoreAreas, scoresEntries, h1, h2, h3, h4]
  · by_cases h1 : scores.clarity < 7 <;> by_cases h2 : scores.context < 7 <;>
      by_cases h3 : scores.completeness < 7 <;> by_cases h4 : scores.jiraLink < 7 <;>
      simp [getFallbackSuggestions, lowScoreAreas, scoresEntries, specWeakDims,
        canonicalDims, dimScore, suggestionsMap, strTruthy, h1, h2, h3, h4] <;> decide
  · by_cases h1 : scores.clarity < 7 <;> by_cases h2 : scores.context < 7 <;>
      by_cases h3 : scores.completeness < 7 <;> by_cases h4 : scores.jiraLink < 7 <;>
      simp [getFallbackSuggestions, lowScoreAreas, scoresEntries, strTruthy,
        suggestionsMap, h1, h2, h3, h4] <;> decide

/-- Witness for C8 at the all-pass breakdown `⟨10,10,10,10⟩`. -/
theorem suggestions_affirmation_witness :
    generateSuggestions SuggestionResponse.sthrow ⟨10, 10, 10, 10⟩ = Except.ok [affirmation] :=
  (suggestions_affirmation_and_fallback ⟨10, 10, 10, 10⟩ SuggestionResponse.sthrow).1
    ⟨by norm_num, by norm_num, by norm_num, by norm_num⟩

/-- C9: with monotonically non-decreasing thresholds, the rating band is a
monotone function of the total score under the ordering
`poor < needs-improvement < good < excellent`. -/
theorem rating_monotone_in_total (th : Thresholds)
    (hng : th.needsImprovement ≤ th.good) (hge : th.good ≤ th.excellent)
    (t1 t2 : ℚ) (h12 : t1 < t2) :
    ratingRank (getRating th t1) ≤ ratingRank (getRating th t2) := by
  simp only [getRating]
  split_ifs <;>
    simp [(by decide : ratingRank "excellent" = 3), (by decide : ratingRank "good" = 2),
      (by decide : ratingRank "needs-improvement" = 1), (by decide : ratingRank "poor" = 0)] <;>
    linarith

/-- Witness for C9 at thresholds `8/6/4` and totals `5 < 7`. -/
theorem rating_monotone_in_total_witness :
    ratingRank (getRating thDefault 5) ≤ ratingRank (getRating thDefault 7) :=
  rating_monotone_in_total thDefault (by norm_num [thDefault]) (by norm_num [thDefault])
    5 7 (by norm_num)

def wClarityOnly : Weights := ⟨1, 0, 0, 0⟩

def r3val : ScoringResult :=
  ⟨6, ⟨5.96, 5, 5, 0⟩, "needs-improvement",
   ["Consider adding more descriptive title and detailed description",
    "Provide more context about why this change is needed",
    "Add tests and update documentation if needed",
    "Link this PR to the relevant Jira ticket"]⟩

/-- Concrete evaluation of `calculateScore` at a clarity response parsing to
`5.96`, clarity-only weights and thresholds `8/6/4`: the reported total is
the rounded `6`, while the rating is computed from the unrounded `5.96`. -/
theorem calcEval596 :
    calculateScore (ClarityResponse.reply (some 5.96)) SuggestionResponse.nonArray
      wClarityOnly thDefault pdEmpty = Except.ok r3val := by
  norm_num [calculateScore, generateSuggestions, analyzeClarityScore,
    analyzeContextScore, analyzeCompletenessScore, analyzeJiraLinkScore,
    jsMin, jsMax, descLenGt, strTruthy, lowScoreAreas, scoresEntries,
    getFallbackSuggestions, suggestionsMap, getRating, round1,
    wClarityOnly, thDefault, pdEmpty, r3val,
    (by decide : hasContextKeyword (none : Option String) = false),
    (by decide : hasDocUpdates ([] : List FileChange) = false)]
  decide

/-- C3 counterexample: at the input of `calcEval596` the result's `rating`
is `"needs-improvement"` (band of the unrounded total `5.96`), while the band
of the reported rounded `totalScore = 6` is `"good"` — the rating does not
equal the band of the rounded total. -/
theorem rating_uses_unrounded_total :
    calculateScore (ClarityResponse.reply (some 5.96)) SuggestionResponse.nonArray
      wClarityOnly thDefault pdEmpty = Except.ok r3val ∧
    r3val.rating ≠ getRating thDefault r3val.totalScore := by
  refine ⟨calcEval596, ?_⟩
  have hg : getRating thDefault r3val.totalScore = "good" := by
    norm_num [getRating, thDefault, r3val]
  rw [hg]
  decide

/-- C3 amended: the `rating` field equals the band mapping applied to the
unrounded weighted total of the breakdown (the source passes `totalScore` to
`getRating` before rounding). -/
theorem rating_from_unrounded_total (cr : ClarityResponse) (sr : SuggestionResponse)
    (w : Weights) (th : Thresholds) (pd : PrData) (r : ScoringResult)
    (h : calculateScore cr sr w th pd = Except.ok r) :
    r.rating = getRating th
      (r.breakdown.clarity * w.clarity + r.breakdown.context * w.context +
       r.breakdown.completeness * w.completeness + r.breakdown.jiraLink * w.jiraLink) := by
  simp only [calculateScore] at h
  split at h
  · exact absurd h (by simp)
  · injection h with h'
    subst h'
    rfl

/-- Witness for the amended C3 at the input of `calcEval596`. -/
theorem rating_from_unrounded_total_witness :
    r3val.rating = getRating thDefault
      (r3val.breakdown.clarity * wClarityOnly.clarity +
       r3val.breakdown.context * wClarityOnly.context +
       r3val.breakdown.completeness * wClarityOnly.completeness +
       r3val.breakdown.jiraLink * wClarityOnly.jiraLink) :=
  rating_from_unrounded_total _ _ _ _ _ _ calcEval596

/-- C4: the reported `totalScore` equals the weighted sum of the four
breakdown sub-scores rounded to one decimal place, with rounding applied
exactly once, after the sum. -/
theorem total_is_rounded_weighted_sum (cr : ClarityResponse) (sr : SuggestionResponse)
    (w : Weights) (th : Thresholds) (pd : PrData) (r : ScoringResult)
    (h : calculateScore cr sr w th pd = Except.ok r) :
    r.totalScore = round1
      (r.breakdown.clarity * w.clarity + r.breakdown.context * w.context +
       r.breakdown.completeness * w.completeness + r.breakdown.jiraLink * w.jiraLink) := by
  simp only [calculateScore] at h
  split at h
  · exact absurd h (by simp)
  · injection h with h'
    subst h'
    rfl

/-- Witness for C4 at the input of `calcEval596`. -/
theorem total_is_rounded_weighted_sum_witness :
    r3val.totalScore = round1
      (r3val.breakdown.clarity * wClarityOnly.clarity +
       r3val.breakdown.context * wClarityOnly.context +
       r3val.breakdown.completeness * wClarityOnly.completeness +
       r3val.breakdown.jiraLink * wClarityOnly.jiraLink) :=
  total_is_rounded_weighted_sum _ _ _ _ _ _ calcEval596

end PrScoring
